import Mathlib

/-!
# ModProblemItem: severity and problem-message rendering

A shallow embedding of `loader/src/ui/mods/list/ModProblemItem.cpp`.

* A `std::string` is a Lean `String`, one `Char` standing for one C++ `char`
  (positions and lengths count characters).
* `std::stringstream` insertion `ss << x` is string concatenation on the right.
* A function that can throw returns `Option`; `none` is the propagated exception.
* The scene-graph side of `init` (background sprite, anchors, scales, label
  geometry) is floating-point layout and is left out; the sprite frame chosen for
  the icon and the text handed to the label are kept.
-/

namespace Geode

/-! ## The parts of `std::string` and `fmt` the file uses -/

/-- The value `std::string::npos` on a 64-bit target. -/
def npos : Nat := 2 ^ 64 - 1

/-- Scan for `std::string::find`: `i` is the position of the head of the remaining input. -/
def findFrom (needle : List Char) : List Char → Nat → Nat
  | [], i => if needle = [] then i else npos
  | c :: cs, i => if needle.isPrefixOf (c :: cs) then i else findFrom needle cs (i + 1)

/-- The call `s.find(needle)`: position of the first occurrence of `needle` in `s`,
or `npos` when there is none. -/
def find (s needle : String) : Nat :=
  findFrom needle.data s.data 0

/-- The call `s.substr(pos, count)`: throws `std::out_of_range` (here `none`) when
`pos > s.size()`, otherwise the characters `[pos, pos + min(count, size - pos))`. -/
def substr (s : String) (pos count : Nat) : Option String :=
  if pos > s.length then none
  else some ⟨(s.data.drop pos).take (min count (s.length - pos))⟩

/-- The call `fmt::format(f, arg)` for a format string `f` that is `before`, one
replacement field, then `after`. -/
def format1 (before after : String) (arg : String) : String :=
  before ++ arg ++ after

/-- The call `fmt::format(f, a, b)` for a format string `f` that is `before`, a
replacement field, `mid`, a replacement field, then `after`. -/
def format2 (before mid after : String) (a b : String) : String :=
  before ++ a ++ mid ++ b ++ after

/-! ## Data model -/

/-- Modelled from the spec: the declaration of `LoadProblem::Type` is in a header
that is not among the sources. The constructors are the enumerators the two
`switch` statements name; `other raw` is any value of the enumeration that the
switches do not name, which is what reaches their `default:` labels. -/
inductive ProblemType where
  | Unknown
  | Suggestion
  | Recommendation
  | Conflict
  | OutdatedConflict
  | PresentIncompatibility
  | OutdatedIncompatibility
  | InvalidFile
  | Duplicate
  | SetupFailed
  | LoadFailed
  | EnableFailed
  | UnzipFailed
  | UnsupportedVersion
  | UnsupportedGeodeVersion
  | NeedsNewerGeodeVersion
  | OutdatedDependency
  | DisabledDependency
  | MissingDependency
  | other (raw : Nat)
  deriving DecidableEq, Repr

/-- Modelled from the spec: `LoadProblem` is declared outside the sources; the
file reads its `type` and `message` members. -/
structure LoadProblem where
  type : ProblemType
  message : String
  deriving DecidableEq, Repr

/-- Modelled from the spec: `ModProblemItem::Severity` is declared in the missing
header; the file names the enumerators `Error` and `Info`. -/
inductive Severity where
  | Error
  | Info
  deriving DecidableEq, Repr

/-- Modelled from the spec: `Mod` is declared outside the sources. `name` is what
`getName()` returns and `version` what `getVersion()` returns (the mod's own
version); `id` and `requiredLoaderVersion` are the descriptor fields of the spec's
data model, which this file never reads. `V` is the type `VersionInfo`. -/
structure Mod (V : Type) where
  id : String
  name : String
  version : V
  requiredLoaderVersion : V

/-- Modelled from the spec: the `Loader` singleton is declared outside the sources.
`version` is what `Loader::get()->getVersion()` returns and `getInstalledMod` the
lookup by id, `none` standing for the null pointer. -/
structure Loader (V : Type) where
  version : V
  getInstalledMod : String → Option (Mod V)

/-- The members of a `ModProblemItem` the file assigns, with the sprite frame name
of the icon child and the text of the label child (`none` before `init` adds them). -/
structure ModProblemItem (V : Type) where
  m_problem : LoadProblem
  m_source : Mod V
  m_severity : Severity
  icon : Option String
  label : Option String

/-! ## The member functions -/

section Members

variable {V : Type}

/-- The method `ModProblemItem::computeSeverity`. -/
def ModProblemItem.computeSeverity (self : ModProblemItem V) : Severity :=
  match self.m_problem.type with
  | .Suggestion => .Info
  | .Recommendation => .Info
  | _ => .Error

/-- The method `ModProblemItem::createSeverityIcon`, as the sprite frame name it asks for. -/
def ModProblemItem.createSeverityIcon (self : ModProblemItem V) : String :=
  match self.m_severity with
  | .Error => "info-alert.png"
  | _ => "info-warning.png"

/-- The method `ModProblemItem::createProblemMessage`. `toNonVString` is
`VersionInfo::toNonVString`, which is defined outside the sources. -/
def ModProblemItem.createProblemMessage (toNonVString : V → String) (loader : Loader V)
    (self : ModProblemItem V) : Option String :=
  let ss : String := ""
  let ss := ss ++ self.m_source.name ++ " "
  match self.m_problem.type with
  | .Unknown =>
    some (ss ++ "has encountered an unknown error while loading.")
  | .Suggestion =>
    match substr self.m_problem.message 0 (find self.m_problem.message " ") with
    | none => none
    | some id =>
      match loader.getInstalledMod id with
      | some found => some (ss ++ format1 "suggests enabling the " " mod." found.name)
      | none => some (ss ++ "suggests " ++ self.m_problem.message ++ " to be installed.")
  | .Recommendation =>
    match substr self.m_problem.message 0 (find self.m_problem.message " ") with
    | none => none
    | some id =>
      match loader.getInstalledMod id with
      | some found => some (ss ++ format1 "recommends enabling the " " mod." found.name)
      | none => some (ss ++ "recommends" ++ self.m_problem.message ++ " to be installed.")
  | .OutdatedConflict | .Conflict =>
    match loader.getInstalledMod self.m_problem.message with
    | some found => some (ss ++ format1 "conflicts with the " " mod." found.name)
    | none => some (ss ++ format1 "conflicts with the " " mod." self.m_problem.message)
  | .OutdatedIncompatibility | .PresentIncompatibility =>
    match loader.getInstalledMod self.m_problem.message with
    | some found => some (ss ++ format1 "cannot work if the " " mod is enabled." found.name)
    | none =>
      some (ss ++ format1 "cannot work if the " " mod is enabled." self.m_problem.message)
  | .InvalidFile =>
    some (ss ++ "has an invalid .geode file.")
  | .Duplicate =>
    some (ss ++ "is a duplicate. Remove one of the installed copies.")
  | .SetupFailed =>
    some (ss ++ "couldn't set up. Reason: " ++ self.m_problem.message ++ ".")
  | .LoadFailed =>
    some (ss ++ "couldn't load its binary.")
  | .EnableFailed =>
    some (ss ++ "couldn't be enabled.")
  | .UnzipFailed =>
    some (ss ++ "coulsn't be unzipped. Reason: " ++ self.m_problem.message)
  | .UnsupportedVersion =>
    some self.m_problem.message
  | .NeedsNewerGeodeVersion | .UnsupportedGeodeVersion =>
    some (ss ++ format2 "requires Geode " " to run (installed: " ")"
      (toNonVString self.m_source.version) (toNonVString loader.version))
  | .OutdatedDependency =>
    match loader.getInstalledMod self.m_problem.message with
    | some found => some (ss ++ format1 "requires the " " mod to be updated." found.name)
    | none =>
      some (ss ++ format1 "requires the " " mod to be updated." self.m_problem.message)
  | .DisabledDependency =>
    match loader.getInstalledMod self.m_problem.message with
    | some found => some (ss ++ format1 "requires the " " mod to be enabled." found.name)
    | none =>
      some (ss ++ format1 "requires the " " mod to be enabled." self.m_problem.message)
  | .MissingDependency =>
    match substr self.m_problem.message 0 (find self.m_problem.message " ") with
    | none => none
    | some _id =>
      some (ss ++ "requires the " ++ self.m_problem.message ++ " mod to be installed.")
  | .other _ =>
    some (ss ++ "default case oops")

/-- The method `ModProblemItem::init(source, problem, size)` run on the item `self`.
`nodeInit` is the result of `CCNode::init()`. The result is the returned `bool`
with the item as `init` leaves it; `none` is an exception out of
`createProblemMessage`. The statements are in the order of the source. -/
def ModProblemItem.init (toNonVString : V → String) (loader : Loader V) (nodeInit : Bool)
    (self : ModProblemItem V) (source : Mod V) (problem : LoadProblem) :
    Option (Bool × ModProblemItem V) :=
  if !nodeInit then some (false, self)
  else
    let self := { self with m_severity := self.computeSeverity }
    let self := { self with m_source := source }
    let self := { self with m_problem := problem }
    let icon := self.createSeverityIcon
    match self.createProblemMessage toNonVString loader with
    | none => none
    | some message =>
      let self := { self with icon := some icon }
      let self := { self with label := some message }
      some (true, self)

end Members

/-! ## Sample inputs

Versions are plain strings here and `toNonVString` is the identity. -/

/-- A source mod at version 1.0.0 that asks for loader version 4.2.0. -/
def sampleMod : Mod String :=
  ⟨"alice.demo", "Demo Mod", "1.0.0", "4.2.0"⟩

/-- An installed mod whose display name differs from its id. -/
def nodeIds : Mod String :=
  ⟨"geode.node-ids", "Node IDs", "1.12.0", "4.0.0"⟩

/-- A loader at version 4.0.0 in which only `geode.node-ids` is installed. -/
def sampleLoader : Loader String :=
  ⟨"4.0.0", fun id => if id = "geode.node-ids" then some nodeIds else none⟩

/-- An item whose stored source is `sampleMod` and whose stored problem is the given one. -/
def sampleItem (t : ProblemType) (message : String) : ModProblemItem String :=
  ⟨⟨t, message⟩, sampleMod, .Error, none, none⟩

/-- An item as it may be before `init`: its problem has type `Unknown` and an empty
message, and it has no children yet. -/
def freshItem : ModProblemItem String :=
  ⟨⟨.Unknown, ""⟩, nodeIds, .Info, none, none⟩

/-! ## Facts about the string operations -/

/-- From position 0 `substr` never throws: it keeps the first `min count size` characters. -/
theorem substr_zero (s : String) (n : Nat) :
    substr s 0 n = some ⟨s.data.take (min n s.length)⟩ := by
  simp [substr]

/-- Searching for a single space returns the number of characters before the first
space, counted from the start position, or `npos` when there is no space. -/
theorem findFrom_space (l : List Char) (i : Nat) :
    findFrom [' '] l i =
      if ' ' ∈ l then i + (l.takeWhile (fun c => c ≠ ' ')).length else npos := by
  induction l generalizing i with
  | nil => simp [findFrom]
  | cons c cs ih =>
    by_cases hc : c = ' '
    · subst hc
      simp [findFrom, List.isPrefixOf]
    · have hc2 : ¬ (' ' = c) := fun h => hc h.symm
      simp [findFrom, List.isPrefixOf, hc, hc2, ih, List.takeWhile_cons]
      split <;> omega

/-- Taking as many characters as `takeWhile` keeps gives what `takeWhile` keeps. -/
theorem take_length_takeWhile (p : Char → Bool) (l : List Char) :
    l.take (l.takeWhile p).length = l.takeWhile p := by
  induction l with
  | nil => rfl
  | cons c cs ih =>
    by_cases hp : p c <;> simp [List.takeWhile_cons, hp, ih]

/-- What `takeWhile` keeps satisfies the test; the input is either that part followed
by a character failing the test, or is kept whole. -/
theorem takeWhile_split (p : Char → Bool) (l : List Char) :
    (∀ x ∈ l.takeWhile p, p x = true) ∧
      ((∃ c rest, p c = false ∧ l = l.takeWhile p ++ c :: rest) ∨
        ((∀ x ∈ l, p x = true) ∧ l.takeWhile p = l)) := by
  induction l with
  | nil => simp
  | cons c cs ih =>
    by_cases hp : p c = true
    · obtain ⟨h1, h2⟩ := ih
      rw [List.takeWhile_cons_of_pos hp]
      refine ⟨?_, ?_⟩
      · intro x hx
        rcases List.mem_cons.mp hx with e | e
        · rw [e]; exact hp
        · exact h1 x e
      · rcases h2 with ⟨d, rest, hd, hr⟩ | ⟨hn, he⟩
        · left
          refine ⟨d, rest, hd, ?_⟩
          rw [List.cons_append, ← hr]
        · right
          refine ⟨?_, by rw [he]⟩
          intro x hx
          rcases List.mem_cons.mp hx with e | e
          · rw [e]; exact hp
          · exact hn x e
    · rw [List.takeWhile_cons_of_neg hp]
      refine ⟨by simp, Or.inl ⟨c, cs, by simpa using hp, rfl⟩⟩

/-- A string without a space is kept whole by the scan up to the first space. -/
theorem takeWhile_ne_of_not_mem (l : List Char) (h : ' ' ∉ l) :
    l.takeWhile (fun c => c ≠ ' ') = l := by
  rcases (takeWhile_split (fun c => c ≠ ' ') l).2 with ⟨c, rest, hc, hl⟩ | ⟨_, he⟩
  · exfalso
    have hc2 : c = ' ' := by simpa using hc
    apply h
    rw [hl, hc2]
    simp
  · exact he

/-- The expression `s.substr(0, s.find(" "))` is the part of `s` before its first space,
for a string shorter than `npos`. -/
theorem substr_find_space (s : String) (h : s.length < npos) :
    substr s 0 (find s " ") = some ⟨s.data.takeWhile (fun c => c ≠ ' ')⟩ := by
  have hd : (" " : String).data = [' '] := rfl
  have hl : s.length = s.data.length := rfl
  rw [substr_zero, find, hd, findFrom_space]
  congr 2
  by_cases hm : ' ' ∈ s.data
  · have hle : (s.data.takeWhile (fun c => c ≠ ' ')).length ≤ s.data.length :=
      (List.takeWhile_sublist _).length_le
    rw [if_pos hm, Nat.zero_add, hl, Nat.min_eq_left hle, take_length_takeWhile]
  · rw [if_neg hm, Nat.min_eq_right (Nat.le_of_lt h), hl, List.take_length,
      takeWhile_ne_of_not_mem _ hm]

/-- The part before the first space has no space in it and is followed by a space,
unless the string has no space, in which case it is the whole string. -/
theorem takeWhile_spec (l : List Char) :
    ' ' ∉ l.takeWhile (fun c => c ≠ ' ') ∧
      ((∃ rest, l = l.takeWhile (fun c => c ≠ ' ') ++ ' ' :: rest) ∨
        (' ' ∉ l ∧ l.takeWhile (fun c => c ≠ ' ') = l)) := by
  obtain ⟨h1, h2⟩ := takeWhile_split (fun c => c ≠ ' ') l
  refine ⟨fun hmem => by simpa using h1 _ hmem, ?_⟩
  rcases h2 with ⟨c, rest, hc, hl⟩ | ⟨hn, he⟩
  · have hc2 : c = ' ' := by simpa using hc
    subst hc2
    exact Or.inl ⟨rest, hl⟩
  · exact Or.inr ⟨fun hmem => by simpa using hn _ hmem, he⟩

/-! ## Claims -/

section Claims

variable {V : Type}

/-- Every run of `createProblemMessage` returns: no `substr` call in it throws. -/
theorem createProblemMessage_total (toNonVString : V → String) (loader : Loader V)
    (self : ModProblemItem V) :
    ∃ m, self.createProblemMessage toNonVString loader = some m := by
  obtain ⟨⟨ty, msg⟩, src, sev, ic, lb⟩ := self
  cases ty <;> simp only [ModProblemItem.createProblemMessage, substr_zero] <;>
    first
      | exact ⟨_, rfl⟩
      | (split <;> exact ⟨_, rfl⟩)

/-- Outside `UnsupportedVersion` the message is the source name, a space, and a
body whose first character is not a space; for the problem types the switch names
that character is not `d` either. -/
theorem createProblemMessage_body (toNonVString : V → String) (loader : Loader V)
    (self : ModProblemItem V) (h : self.m_problem.type ≠ .UnsupportedVersion) :
    ∃ rest : List Char,
      self.createProblemMessage toNonVString loader =
        some ⟨self.m_source.name.data ++ ' ' :: rest⟩ ∧
      rest.head? ≠ some ' ' ∧
      ((∀ raw, self.m_problem.type ≠ .other raw) → rest.head? ≠ some 'd') := by
  obtain ⟨⟨ty, msg⟩, src, sev, ic, lb⟩ := self
  cases ty <;> simp only [ModProblemItem.createProblemMessage, substr_zero, format1, format2] <;>
    first
      | exact absurd rfl h
      | (split <;> simp [String.ext_iff])
      | simp [String.ext_iff]

/-- C1: `computeSeverity` returns `Info` exactly when the stored problem type is
`Suggestion` or `Recommendation`, and `Error` for every other type, `Unknown` and
the types the switch does not name included. -/
theorem computeSeverity_info_iff_suggestion_or_recommendation (self : ModProblemItem V) :
    (self.computeSeverity = .Info ↔
      (self.m_problem.type = .Suggestion ∨ self.m_problem.type = .Recommendation)) ∧
    (self.computeSeverity = .Error ↔
      ¬ (self.m_problem.type = .Suggestion ∨ self.m_problem.type = .Recommendation)) ∧
    (∀ message, ModProblemItem.computeSeverity
      { self with m_problem := ⟨.Unknown, message⟩ } = .Error) := by
  obtain ⟨⟨ty, msg⟩, src, sev, ic, lb⟩ := self
  cases ty <;> simp [ModProblemItem.computeSeverity]

/-- C2: `init` computes `m_severity` before it stores `problem`, so with
`CCNode::init()` succeeding it returns true and leaves `m_severity` equal to the
severity of the problem the item held before the call, not of `problem`. For every
item there is a problem whose derived severity differs from the stored one; on an
item holding type `Unknown`, a `Suggestion` is stored with severity `Error` and
gets the `info-alert.png` icon although its derived severity is `Info`. -/
theorem init_stores_severity_of_previous_problem :
    (∀ (W : Type) (toNonVString : W → String) (loader : Loader W) (self : ModProblemItem W)
        (source : Mod W) (problem : LoadProblem),
      ∃ item, self.init toNonVString loader true source problem = some (true, item) ∧
        item.m_problem = problem ∧ item.m_severity = self.computeSeverity) ∧
    (∀ (W : Type) (toNonVString : W → String) (loader : Loader W) (self : ModProblemItem W)
        (source : Mod W),
      ∃ problem item, self.init toNonVString loader true source problem = some (true, item) ∧
        item.m_severity ≠ item.computeSeverity) ∧
    (∃ item, freshItem.init id sampleLoader true sampleMod ⟨.Suggestion, "geode.node-ids"⟩ =
        some (true, item) ∧
      item.m_problem.type = .Suggestion ∧ item.computeSeverity = .Info ∧
      item.m_severity = .Error ∧ item.icon = some "info-alert.png") := by
  have key : ∀ (W : Type) (toNonVString : W → String) (loader : Loader W)
      (self : ModProblemItem W) (source : Mod W) (problem : LoadProblem),
      ∃ item, self.init toNonVString loader true source problem = some (true, item) ∧
        item.m_problem = problem ∧ item.m_severity = self.computeSeverity ∧
        item.icon = some (ModProblemItem.createSeverityIcon
          { self with m_severity := self.computeSeverity }) := by
    intro W toNonVString loader self source problem
    obtain ⟨m, hm⟩ := createProblemMessage_total toNonVString loader
      { self with m_severity := self.computeSeverity, m_source := source, m_problem := problem }
    refine ⟨⟨problem, source, self.computeSeverity,
      some (ModProblemItem.createSeverityIcon { self with m_severity := self.computeSeverity }),
      some m⟩, ?_, rfl, rfl, rfl⟩
    simp only [ModProblemItem.init, Bool.not_true, Bool.false_eq_true, if_false]
    rw [hm]
    rfl
  refine ⟨?_, ?_, ?_⟩
  · intro W toNonVString loader self source problem
    obtain ⟨item, h1, h2, h3, _⟩ := key W toNonVString loader self source problem
    exact ⟨item, h1, h2, h3⟩
  · intro W toNonVString loader self source
    cases hs : self.computeSeverity with
    | Error =>
      obtain ⟨item, h1, h2, h3, _⟩ := key W toNonVString loader self source ⟨.Suggestion, ""⟩
      refine ⟨_, item, h1, ?_⟩
      rw [h3, hs]
      simp [ModProblemItem.computeSeverity, h2]
    | Info =>
      obtain ⟨item, h1, h2, h3, _⟩ := key W toNonVString loader self source ⟨.Unknown, ""⟩
      refine ⟨_, item, h1, ?_⟩
      rw [h3, hs]
      simp [ModProblemItem.computeSeverity, h2]
  · obtain ⟨item, h1, h2, h3, h4⟩ :=
      key String id sampleLoader freshItem sampleMod ⟨.Suggestion, "geode.node-ids"⟩
    refine ⟨item, h1, by rw [h2], ?_, ?_, ?_⟩
    · simp [ModProblemItem.computeSeverity, h2]
    · rw [h3]; rfl
    · rw [h4]; rfl

/-- C10: for the same source, message, loader and lookup, `Conflict` and
`OutdatedConflict` give the same message, `PresentIncompatibility` and
`OutdatedIncompatibility` give the same message, and `UnsupportedGeodeVersion` and
`NeedsNewerGeodeVersion` give the same message. -/
theorem createProblemMessage_paired_kinds_agree (toNonVString : V → String)
    (loader : Loader V) (self : ModProblemItem V) (message : String) :
    ModProblemItem.createProblemMessage toNonVString loader
        { self with m_problem := ⟨.Conflict, message⟩ } =
      ModProblemItem.createProblemMessage toNonVString loader
        { self with m_problem := ⟨.OutdatedConflict, message⟩ } ∧
    ModProblemItem.createProblemMessage toNonVString loader
        { self with m_problem := ⟨.PresentIncompatibility, message⟩ } =
      ModProblemItem.createProblemMessage toNonVString loader
        { self with m_problem := ⟨.OutdatedIncompatibility, message⟩ } ∧
    ModProblemItem.createProblemMessage toNonVString loader
        { self with m_problem := ⟨.UnsupportedGeodeVersion, message⟩ } =
      ModProblemItem.createProblemMessage toNonVString loader
        { self with m_problem := ⟨.NeedsNewerGeodeVersion, message⟩ } :=
  ⟨rfl, rfl, rfl⟩

/-- C3: for `Conflict`, `OutdatedConflict`, `PresentIncompatibility`,
`OutdatedIncompatibility`, `OutdatedDependency` and `DisabledDependency` the
installed mod is looked up under the whole `problem.message`; a found mod puts its
display name into the sentence of the type, after the source name and a space, and
a failed lookup puts `problem.message` itself in that place. -/
theorem createProblemMessage_peer_lookup_whole_message (toNonVString : V → String)
    (loader : Loader V) (self : ModProblemItem V) (peer : String)
    (hpeer : peer = match loader.getInstalledMod self.m_problem.message with
      | some found => found.name
      | none => self.m_problem.message) :
    ((self.m_problem.type = .Conflict ∨ self.m_problem.type = .OutdatedConflict) →
      self.createProblemMessage toNonVString loader =
        some (self.m_source.name ++ " " ++ "conflicts with the " ++ peer ++ " mod.")) ∧
    ((self.m_problem.type = .PresentIncompatibility ∨
        self.m_problem.type = .OutdatedIncompatibility) →
      self.createProblemMessage toNonVString loader =
        some (self.m_source.name ++ " " ++ "cannot work if the " ++ peer ++
          " mod is enabled.")) ∧
    (self.m_problem.type = .OutdatedDependency →
      self.createProblemMessage toNonVString loader =
        some (self.m_source.name ++ " " ++ "requires the " ++ peer ++ " mod to be updated.")) ∧
    (self.m_problem.type = .DisabledDependency →
      self.createProblemMessage toNonVString loader =
        some (self.m_source.name ++ " " ++ "requires the " ++ peer ++ " mod to be enabled.")) := by
  obtain ⟨⟨ty, msg⟩, src, sev, ic, lb⟩ := self
  subst hpeer
  refine ⟨?_, ?_, ?_, ?_⟩
  · rintro (h | h) <;> simp only at h <;> subst h <;>
      simp only [ModProblemItem.createProblemMessage, format1] <;>
      split <;> simp [String.ext_iff]
  · rintro (h | h) <;> simp only at h <;> subst h <;>
      simp only [ModProblemItem.createProblemMessage, format1] <;>
      split <;> simp [String.ext_iff]
  · intro h
    simp only at h
    subst h
    simp only [ModProblemItem.createProblemMessage, format1]
    split <;> simp [String.ext_iff]
  · intro h
    simp only at h
    subst h
    simp only [ModProblemItem.createProblemMessage, format1]
    split <;> simp [String.ext_iff]

/-- Witness for C3: a conflict with the installed `geode.node-ids` is reported under
its display name, a conflict with a mod that is not installed under the raw message. -/
theorem createProblemMessage_peer_lookup_whole_message_witness :
    ("Node IDs" = match sampleLoader.getInstalledMod
        (sampleItem .Conflict "geode.node-ids").m_problem.message with
      | some found => found.name
      | none => (sampleItem .Conflict "geode.node-ids").m_problem.message) ∧
    (sampleItem .Conflict "geode.node-ids").createProblemMessage id sampleLoader =
      some "Demo Mod conflicts with the Node IDs mod." ∧
    (sampleItem .DisabledDependency "bob.absent").createProblemMessage id sampleLoader =
      some "Demo Mod requires the bob.absent mod to be enabled." :=
  ⟨by decide,
    (createProblemMessage_peer_lookup_whole_message id sampleLoader
      (sampleItem .Conflict "geode.node-ids") "Node IDs" (by decide)).1 (Or.inl rfl),
    (createProblemMessage_peer_lookup_whole_message id sampleLoader
      (sampleItem .DisabledDependency "bob.absent") "bob.absent" (by decide)).2.2.2 rfl⟩

/-- C4: for `UnsupportedGeodeVersion` and `NeedsNewerGeodeVersion` the first version
in the message is the source mod's own version (`m_source->getVersion()`), not the
loader version the mod requires; the installed loader version follows. For a mod at
1.0.0 that requires loader 4.2.0 under an installed loader 4.0.0 the message reads
"requires Geode 1.0.0", and the required version 4.2.0 never reaches the message. -/
theorem createProblemMessage_geode_version_prints_mod_version :
    (∀ (W : Type) (toNonVString : W → String) (loader : Loader W) (self : ModProblemItem W)
        (message : String) (required : W),
      ModProblemItem.createProblemMessage toNonVString loader
          { self with m_problem := ⟨.UnsupportedGeodeVersion, message⟩ } =
        some (self.m_source.name ++ " requires Geode " ++ toNonVString self.m_source.version ++
          " to run (installed: " ++ toNonVString loader.version ++ ")") ∧
      ModProblemItem.createProblemMessage toNonVString loader
          { self with m_problem := ⟨.NeedsNewerGeodeVersion, message⟩ } =
        some (self.m_source.name ++ " requires Geode " ++ toNonVString self.m_source.version ++
          " to run (installed: " ++ toNonVString loader.version ++ ")") ∧
      ModProblemItem.createProblemMessage toNonVString loader
          { self with
            m_problem := ⟨.UnsupportedGeodeVersion, message⟩
            m_source := { self.m_source with requiredLoaderVersion := required } } =
        ModProblemItem.createProblemMessage toNonVString loader
          { self with m_problem := ⟨.UnsupportedGeodeVersion, message⟩ }) ∧
    sampleMod.version = "1.0.0" ∧ sampleMod.requiredLoaderVersion = "4.2.0" ∧
    sampleLoader.version = "4.0.0" ∧
    (sampleItem .UnsupportedGeodeVersion "").createProblemMessage id sampleLoader =
      some "Demo Mod requires Geode 1.0.0 to run (installed: 4.0.0)" ∧
    (sampleItem .UnsupportedGeodeVersion "").createProblemMessage id sampleLoader ≠
      some (sampleMod.name ++ " requires Geode " ++ sampleMod.requiredLoaderVersion ++
        " to run (installed: " ++ sampleLoader.version ++ ")") := by
  refine ⟨?_, rfl, rfl, rfl, by decide, by decide⟩
  intro W toNonVString loader self message required
  refine ⟨?_, ?_, rfl⟩ <;>
    simp [ModProblemItem.createProblemMessage, format2, String.ext_iff]

/-- C5: when the lookup under the id finds nothing, a `Suggestion` reads
source name, " suggests ", the message, " to be installed.", while a
`Recommendation` reads source name, " recommends", the message, " to be installed."
with nothing between "recommends" and the message; the latter is never the text
with a space in that place. -/
theorem createProblemMessage_not_found_suggests_recommends (toNonVString : V → String)
    (loader : Loader V) (self : ModProblemItem V)
    (hnone : ∀ id, substr self.m_problem.message 0 (find self.m_problem.message " ") = some id →
      loader.getInstalledMod id = none) :
    (self.m_problem.type = .Suggestion →
      self.createProblemMessage toNonVString loader =
        some (self.m_source.name ++ " suggests " ++ self.m_problem.message ++
          " to be installed.")) ∧
    (self.m_problem.type = .Recommendation →
      self.createProblemMessage toNonVString loader =
          some (self.m_source.name ++ " recommends" ++ self.m_problem.message ++
            " to be installed.") ∧
        self.createProblemMessage toNonVString loader ≠
          some (self.m_source.name ++ " recommends " ++ self.m_problem.message ++
            " to be installed.")) := by
  obtain ⟨⟨ty, msg⟩, src, sev, ic, lb⟩ := self
  have hn := hnone _ (substr_zero msg (find msg " "))
  have hrec : ModProblemItem.createProblemMessage toNonVString loader
      ⟨⟨.Recommendation, msg⟩, src, sev, ic, lb⟩ =
        some (src.name ++ " recommends" ++ msg ++ " to be installed.") := by
    simp only [ModProblemItem.createProblemMessage, substr_zero, hn]
    simp [String.ext_iff]
  refine ⟨?_, ?_⟩
  · intro h
    simp only at h
    subst h
    simp only [ModProblemItem.createProblemMessage, substr_zero, hn]
    simp [String.ext_iff]
  · intro h
    simp only at h
    subst h
    refine ⟨hrec, ?_⟩
    rw [hrec]
    intro heq
    have hlen := congrArg String.length (Option.some.inj heq)
    simp only [String.length_append] at hlen
    have h1 : (" recommends" : String).length = 11 := by decide
    have h2 : (" recommends " : String).length = 12 := by decide
    omega

/-- Witness for C5: `bob.absent` is not installed. -/
theorem createProblemMessage_not_found_suggests_recommends_witness :
    (sampleItem .Suggestion "bob.absent >=1.0.0").createProblemMessage id sampleLoader =
      some "Demo Mod suggests bob.absent >=1.0.0 to be installed." ∧
    (sampleItem .Recommendation "bob.absent >=1.0.0").createProblemMessage id sampleLoader =
      some "Demo Mod recommendsbob.absent >=1.0.0 to be installed." :=
  ⟨(createProblemMessage_not_found_suggests_recommends id sampleLoader
      (sampleItem .Suggestion "bob.absent >=1.0.0")
      (fun i hi => by
        have hs : substr "bob.absent >=1.0.0" 0 (find "bob.absent >=1.0.0" " ") =
            some "bob.absent" := by decide
        have hi2 : some "bob.absent" = some i := hs.symm.trans hi
        rw [← Option.some.inj hi2]
        rfl)).1 rfl,
    ((createProblemMessage_not_found_suggests_recommends id sampleLoader
      (sampleItem .Recommendation "bob.absent >=1.0.0")
      (fun i hi => by
        have hs : substr "bob.absent >=1.0.0" 0 (find "bob.absent >=1.0.0" " ") =
            some "bob.absent" := by decide
        have hi2 : some "bob.absent" = some i := hs.symm.trans hi
        rw [← Option.some.inj hi2]
        rfl)).2 rfl).1⟩

/-- C8: for `MissingDependency` the message is source name, " requires the ", the whole
`problem.message`, " mod to be installed.", whatever the loader and its installed
mods are. -/
theorem createProblemMessage_missingDependency_whole_message (toNonVString : V → String)
    (loader : Loader V) (self : ModProblemItem V)
    (hty : self.m_problem.type = .MissingDependency) :
    self.createProblemMessage toNonVString loader =
        some (self.m_source.name ++ " requires the " ++ self.m_problem.message ++
          " mod to be installed.") ∧
    (∀ (otherToNonVString : V → String) (otherLoader : Loader V),
      self.createProblemMessage otherToNonVString otherLoader =
        self.createProblemMessage toNonVString loader) := by
  obtain ⟨⟨ty, msg⟩, src, sev, ic, lb⟩ := self
  simp only at hty
  subst hty
  refine ⟨?_, fun _ _ => rfl⟩
  simp only [ModProblemItem.createProblemMessage, substr_zero]
  simp [String.ext_iff]

/-- Witness for C8: the version constraint after the id stays in the message, and the
id being installed changes nothing. -/
theorem createProblemMessage_missingDependency_whole_message_witness :
    (sampleItem .MissingDependency "geode.node-ids >=1.0.0").createProblemMessage
        id sampleLoader =
      some "Demo Mod requires the geode.node-ids >=1.0.0 mod to be installed." :=
  (createProblemMessage_missingDependency_whole_message id sampleLoader
    (sampleItem .MissingDependency "geode.node-ids >=1.0.0") rfl).1

/-- C6: for `Suggestion` and `Recommendation` the id looked up is the part of
`problem.message` before its first space, or the whole message when it has no
space. When the lookup under that id finds a mod the message is source name,
" suggests enabling the " (or " recommends enabling the "), the found name, " mod.";
the rest of `problem.message` has no part in it: any other message with the same id
gives the same text. -/
theorem createProblemMessage_suggestion_lookup_id (toNonVString : V → String)
    (loader : Loader V) (self : ModProblemItem V)
    (hlen : self.m_problem.message.length < npos)
    (hty : self.m_problem.type = .Suggestion ∨ self.m_problem.type = .Recommendation) :
    ∃ modId : String,
      substr self.m_problem.message 0 (find self.m_problem.message " ") = some modId ∧
      ' ' ∉ modId.data ∧
      ((∃ rest, self.m_problem.message = modId ++ " " ++ rest) ∨
        (' ' ∉ self.m_problem.message.data ∧ modId = self.m_problem.message)) ∧
      (∀ found, loader.getInstalledMod modId = some found →
        (self.m_problem.type = .Suggestion →
          self.createProblemMessage toNonVString loader =
            some (self.m_source.name ++ " suggests enabling the " ++ found.name ++ " mod.")) ∧
        (self.m_problem.type = .Recommendation →
          self.createProblemMessage toNonVString loader =
            some (self.m_source.name ++ " recommends enabling the " ++ found.name ++ " mod.")) ∧
        (∀ other : ModProblemItem V,
          other.m_source = self.m_source → other.m_problem.type = self.m_problem.type →
          substr other.m_problem.message 0 (find other.m_problem.message " ") = some modId →
          other.createProblemMessage toNonVString loader =
            self.createProblemMessage toNonVString loader)) := by
  obtain ⟨⟨ty, msg⟩, src, sev, ic, lb⟩ := self
  simp only at hlen hty
  have hid := substr_find_space msg hlen
  obtain ⟨hno, hsplit⟩ := takeWhile_spec msg.data
  refine ⟨_, hid, hno, ?_, ?_⟩
  · rcases hsplit with ⟨rest, hr⟩ | ⟨hn, he⟩
    · refine Or.inl ⟨⟨rest⟩, ?_⟩
      apply String.ext
      simpa using hr
    · exact Or.inr ⟨hn, String.ext he⟩
  · intro found hfound
    have hs : ModProblemItem.createProblemMessage toNonVString loader
        ⟨⟨.Suggestion, msg⟩, src, sev, ic, lb⟩ =
          some (src.name ++ " suggests enabling the " ++ found.name ++ " mod.") := by
      simp only [ModProblemItem.createProblemMessage, hid, hfound, format1]
      simp [String.ext_iff]
    have hr : ModProblemItem.createProblemMessage toNonVString loader
        ⟨⟨.Recommendation, msg⟩, src, sev, ic, lb⟩ =
          some (src.name ++ " recommends enabling the " ++ found.name ++ " mod.") := by
      simp only [ModProblemItem.createProblemMessage, hid, hfound, format1]
      simp [String.ext_iff]
    refine ⟨?_, ?_, ?_⟩
    · intro h
      simp only at h
      subst h
      exact hs
    · intro h
      simp only at h
      subst h
      exact hr
    · rintro ⟨⟨ty2, msg2⟩, src2, sev2, ic2, lb2⟩ hsrc hty2 hid2
      simp only at hsrc hty2 hid2
      subst hsrc hty2
      rcases hty with h | h <;> subst h
      · rw [hs]
        simp only [ModProblemItem.createProblemMessage, hid2, hfound, format1]
        simp [String.ext_iff]
      · rw [hr]
        simp only [ModProblemItem.createProblemMessage, hid2, hfound, format1]
        simp [String.ext_iff]

/-- Witness for C6: the id of "geode.node-ids >=1.0.0" is "geode.node-ids", which
is installed under the name "Node IDs". -/
theorem createProblemMessage_suggestion_lookup_id_witness :
    (sampleItem .Suggestion "geode.node-ids >=1.0.0").m_problem.message.length < npos ∧
    ∃ modId : String,
      substr "geode.node-ids >=1.0.0" 0 (find "geode.node-ids >=1.0.0" " ") = some modId ∧
      modId = "geode.node-ids" ∧
      (sampleItem .Suggestion "geode.node-ids >=1.0.0").createProblemMessage id sampleLoader =
        some "Demo Mod suggests enabling the Node IDs mod." := by
  refine ⟨by decide, ?_⟩
  obtain ⟨i, h1, _, _, h4⟩ := createProblemMessage_suggestion_lookup_id id sampleLoader
    (sampleItem .Suggestion "geode.node-ids >=1.0.0") (by decide) (Or.inl rfl)
  have hs : substr "geode.node-ids >=1.0.0" 0 (find "geode.node-ids >=1.0.0" " ") =
      some "geode.node-ids" := by decide
  have hi : i = "geode.node-ids" := Option.some.inj (h1.symm.trans hs)
  subst hi
  exact ⟨_, hs, rfl, (h4 nodeIds rfl).1 rfl⟩

/-- Counterexample for C7: an `UnsupportedVersion` problem whose message is the source
name followed by " default case oops" renders as exactly the text of the default
branch. -/
theorem createProblemMessage_unsupportedVersion_equals_default_text :
    (sampleItem .UnsupportedVersion "Demo Mod default case oops").m_problem.type =
      .UnsupportedVersion ∧
    (sampleItem .UnsupportedVersion "Demo Mod default case oops").createProblemMessage
        id sampleLoader =
      some ((sampleItem .UnsupportedVersion "Demo Mod default case oops").m_source.name ++
        " default case oops") := by
  decide

/-- C7, amended: for every problem type the switch names other than
`UnsupportedVersion` the message is never source name plus " default case oops";
for `UnsupportedVersion` the message is `problem.message` itself. -/
theorem createProblemMessage_named_type_not_default_text (toNonVString : V → String)
    (loader : Loader V) (self : ModProblemItem V)
    (hnamed : ∀ raw, self.m_problem.type ≠ .other raw) :
    (self.m_problem.type ≠ .UnsupportedVersion →
      self.createProblemMessage toNonVString loader ≠
        some (self.m_source.name ++ " default case oops")) ∧
    (self.m_problem.type = .UnsupportedVersion →
      self.createProblemMessage toNonVString loader = some self.m_problem.message) := by
  refine ⟨?_, ?_⟩
  · intro hne heq
    obtain ⟨rest, hrest, _, hd⟩ := createProblemMessage_body toNonVString loader self hne
    rw [hrest] at heq
    have hdata := congrArg String.data (Option.some.inj heq)
    simp only [String.data_append] at hdata
    have hr : rest = "default case oops".data := by
      have := List.append_cancel_left hdata
      simpa using this
    apply hd hnamed
    rw [hr]
    rfl
  · intro h
    obtain ⟨⟨ty, msg⟩, src, sev, ic, lb⟩ := self
    simp only at h
    subst h
    rfl

/-- Witness for C7 (amended): a `MissingDependency` item and an `UnsupportedVersion`
item. -/
theorem createProblemMessage_named_type_not_default_text_witness :
    (sampleItem .MissingDependency "bob.absent").createProblemMessage id sampleLoader ≠
      some ((sampleItem .MissingDependency "bob.absent").m_source.name ++
        " default case oops") ∧
    (sampleItem .UnsupportedVersion "needs game version 2.206").createProblemMessage
        id sampleLoader = some "needs game version 2.206" :=
  ⟨(createProblemMessage_named_type_not_default_text id sampleLoader
      (sampleItem .MissingDependency "bob.absent")
      (fun _ h => ProblemType.noConfusion h)).1 (fun h => ProblemType.noConfusion h),
    (createProblemMessage_named_type_not_default_text id sampleLoader
      (sampleItem .UnsupportedVersion "needs game version 2.206")
      (fun _ h => ProblemType.noConfusion h)).2 rfl⟩

/-- C9: for every problem type other than `UnsupportedVersion` the message begins
with the source name and one space, the character after that space not being a
space; for `UnsupportedVersion` the message is exactly `problem.message`. -/
theorem createProblemMessage_begins_with_source_name (toNonVString : V → String)
    (loader : Loader V) (self : ModProblemItem V) :
    (self.m_problem.type ≠ .UnsupportedVersion →
      ∃ rest : String,
        self.createProblemMessage toNonVString loader =
          some (self.m_source.name ++ " " ++ rest) ∧
        rest.data.head? ≠ some ' ') ∧
    (self.m_problem.type = .UnsupportedVersion →
      self.createProblemMessage toNonVString loader = some self.m_problem.message) := by
  refine ⟨?_, ?_⟩
  · intro hne
    obtain ⟨rest, hrest, hsp, _⟩ := createProblemMessage_body toNonVString loader self hne
    refine ⟨⟨rest⟩, ?_, hsp⟩
    rw [hrest]
    simp [String.ext_iff]
  · intro h
    obtain ⟨⟨ty, msg⟩, src, sev, ic, lb⟩ := self
    simp only at h
    subst h
    rfl

/-- Witness for C9: a `Duplicate` item and an `UnsupportedVersion` item. -/
theorem createProblemMessage_begins_with_source_name_witness :
    (∃ rest : String,
      (sampleItem .Duplicate "").createProblemMessage id sampleLoader =
        some ("Demo Mod" ++ " " ++ rest) ∧ rest.data.head? ≠ some ' ') ∧
    (sampleItem .UnsupportedVersion "needs game version 2.206").createProblemMessage
        id sampleLoader = some "needs game version 2.206" :=
  ⟨(createProblemMessage_begins_with_source_name id sampleLoader
      (sampleItem .Duplicate "")).1 (fun h => ProblemType.noConfusion h),
    (createProblemMessage_begins_with_source_name id sampleLoader
      (sampleItem .UnsupportedVersion "needs game version 2.206")).2 rfl⟩

end Claims

end Geode
